import Mathlib

/-!
# Verification of the fire-alarm detection script (`main.py`)

A shallow embedding of the single-file Python program. Conventions:

* Images are row-major lists of BGR pixels (`numpy` arrays of shape h × w × 3,
  dtype `uint8`; all pixel values written by this program are the constants 0
  and 255, so plain `Nat` triples suffice).
* The external OpenCV text primitives (`cv2.getTextSize`, the glyph shape drawn
  by `cv2.putText`) are opaque collaborators: the development is parametric
  over a `CV` structure providing the measured text size and the set of pixels
  a `putText` call covers.  Font scales are floats in the source (1 and 0.6);
  they are carried as tenths (10 and 6).  The single font constant
  `cv2.FONT_HERSHEY_SIMPLEX` is omitted from the signatures.
* Python functions that may mutate an argument in place are modelled as
  returning the post-call state of that buffer alongside their result.
* The filesystem, the capture device, the detection model and the audio
  device are environment parameters; the orchestration functions produce the
  list of observable events (window creation/destruction, capture open/release,
  frame display, alarm invocations, console output) of one run.
-/

/-- A BGR pixel, as the program's `numpy` `uint8` triples. -/
abbrev Pixel := Nat × Nat × Nat

/-- A row-major raster image (`numpy` array of shape h × w × 3). -/
abbrev Image := List (List Pixel)

/-- The external OpenCV text primitives, as opaque collaborators:
`getTextSize text scaleTenths thickness` is the measured `(width, height)` of
the rendered text, and `textMask text scaleTenths thickness org row col`
states whether the glyphs of a `cv2.putText` call with those arguments cover
the pixel at `(row, col)` of the target buffer. -/
structure CV where
  getTextSize : String → Nat → Nat → Nat × Nat
  textMask : String → Nat → Nat → Int × Int → Nat → Nat → Bool

/-- `cv2.putText cv img text org scaleTenths color thickness`: every pixel of
the buffer covered by the text's glyphs is set to `color`; all other pixels
keep their value.  (The source draws without anti-aliasing blending in this
model; which pixels are covered is the external library's business, carried
by `cv.textMask`.) -/
def putText (cv : CV) (img : Image) (text : String) (org : Int × Int)
    (scaleTenths : Nat) (color : Pixel) (thickness : Nat) : Image :=
  img.enum.map (fun r =>
    r.2.enum.map (fun c =>
      if cv.textMask text scaleTenths thickness org r.1 c.1 then color else c.2))

/-- The horizontal text position computed at `main.py:28`:
`text_x = (w - text_size[0]) // 2` (Python `//` is floor division, hence
`Int.fdiv`).  The status-bar text uses font scale 1 and thickness 2. -/
def statusTextX (cv : CV) (status_text : String) (w : Nat) : Int :=
  ((w : Int) - ((cv.getTextSize status_text 10 2).1 : Int)).fdiv 2

/-- The vertical text position computed at `main.py:29`:
`text_y = (60 + text_size[1]) // 2`. -/
def statusTextY (cv : CV) (status_text : String) : Int :=
  (60 + ((cv.getTextSize status_text 10 2).2 : Int)).fdiv 2

/-- `add_status_bar` (`main.py:14-32`): builds a fresh 60-row status bar the
width of the image — background `(0,0,255)` (BGR red) with white text when
`is_alert`, `(0,255,0)` (BGR green) with black text otherwise — draws the
status text centred into that fresh buffer, and returns
`np.vstack((image, status_bar))`, a newly allocated array. -/
def add_status_bar (cv : CV) (image : Image) (status_text : String)
    (is_alert : Bool) : Image :=
  let w := (image.headD []).length
  let bg : Pixel := if is_alert then (0, 0, 255) else (0, 255, 0)
  let text_color : Pixel := if is_alert then (255, 255, 255) else (0, 0, 0)
  let status_bar : Image := List.replicate 60 (List.replicate w bg)
  let status_bar := putText cv status_bar status_text
    (statusTextX cv status_text w, statusTextY cv status_text) 10 text_color 2
  image ++ status_bar

/-- The call effect of `add_status_bar` on the caller's buffer: the first
component is the returned image, the second the state of the `image` argument
after the call.  `putText` is applied only to the freshly allocated
`status_bar` and `np.vstack` allocates a new array, so the input buffer is
unmodified. -/
def add_status_bar_buffers (cv : CV) (image : Image) (status_text : String)
    (is_alert : Bool) : Image × Image :=
  (add_status_bar cv image status_text is_alert, image)

/-- `str.split(sep)` for a one-character separator, on the character list
(Python semantics: splitting the empty string yields `[""]`). -/
def splitChar (sep : Char) : List Char → List (List Char)
  | [] => [[]]
  | c :: rest =>
    let r := splitChar sep rest
    if c = sep then [] :: r
    else
      match r with
      | [] => [[c]]
      | g :: gs => (c :: g) :: gs

/-- `add_info_overlay` (`main.py:34-45`): for each line of the
newline-delimited `info_text`, at `y = 30 + i * 25` and left padding 10,
draws the line twice into the *input* buffer — a white stroke of thickness
`thickness + 1 = 2` first, then a black stroke of thickness 1 — and returns
that same buffer (`cv2.putText` draws in place).  The first component is the
returned image, the second the state of the `image` argument after the call:
they are the same mutated buffer. -/
def add_info_overlay (cv : CV) (image : Image) (info_text : String) :
    Image × Image :=
  let lines := (splitChar '\n' info_text.data).map (fun l => String.mk l)
  let final := lines.enum.foldl
    (fun img p =>
      let y : Int := 30 + (p.1 : Int) * 25
      let img := putText cv img p.2 (10, y) 6 (255, 255, 255) 2
      putText cv img p.2 (10, y) 6 (0, 0, 0) 1)
    image
  (final, final)

/-- The `simpleaudio` collaborators used by `play_alarm`: loading a wave file,
starting playback, and waiting for completion.  Each call either yields a
handle (a `Nat` tag) or raises, carried as `Except` with the exception's
message. -/
structure Audio where
  fromWaveFile : String → Except String Nat
  play : Nat → Except String Nat
  waitDone : Nat → Except String Unit

/-- One observable action of a run: console output, window and capture
lifecycle, displaying a frame, and an invocation of the alarm player. -/
inductive Event where
  | log (msg : String)
  | createWindow
  | openCapture (src : String)
  | releaseCapture
  | destroyWindows
  | imshow (frame : Image)
  | alarmCall
  deriving DecidableEq

/-- `play_alarm` (`main.py:47-53`): loads `test.wav`, plays it and waits; the
whole body is wrapped in `try/except Exception`, so any failure only produces
the `Error playing alarm: …` console line and the function returns normally. -/
def play_alarm (audio : Audio) : List Event :=
  match audio.fromWaveFile "test.wav" with
  | Except.error e => [Event.log ("Error playing alarm: " ++ e)]
  | Except.ok wave_obj =>
    match audio.play wave_obj with
    | Except.error e => [Event.log ("Error playing alarm: " ++ e)]
    | Except.ok play_obj =>
      match audio.waitDone play_obj with
      | Except.error e => [Event.log ("Error playing alarm: " ++ e)]
      | Except.ok _ => []

/-- The platform facts the Resolver consults: the home directory and
current working directory (for `os.path.expanduser` / `os.path.abspath`),
the per-user home lookup (`~user` expansion), and the two filesystem probes
`os.path.exists` / `os.access(·, R_OK)`.  The probes are `Except`-valued so
that a probe that raises (instead of returning a boolean) is representable. -/
structure OS where
  home : String
  cwd : String
  users : String → Option String
  pathExists : String → Except String Bool
  readable : String → Except String Bool

/-- Python `str.strip()` with no argument: removes leading and trailing
whitespace (space, `\t`, `\n`, `\r`, `\x0b`, `\x0c`). -/
def isPySpace (c : Char) : Bool :=
  c = ' ' ∨ c = '\t' ∨ c = '\n' ∨ c = '\r' ∨ c = '\x0b' ∨ c = '\x0c'

/-- `path.strip()` at `main.py:56`. -/
def pyStrip (s : String) : String :=
  String.mk (((s.data.dropWhile isPySpace).reverse.dropWhile isPySpace).reverse)

/-- `path.replace('\\', '')` at `main.py:57`: replacing every occurrence of
the one-character pattern `\` by the empty string removes exactly the
backslash characters. -/
def removeBackslashes (s : String) : String :=
  String.mk (s.data.filter (fun c => c ≠ '\\'))

/-- `userhome.rstrip('/')` inside `posixpath.expanduser`. -/
def rstripSlashes (s : List Char) : List Char :=
  ((s.reverse).dropWhile (fun c => c = '/')).reverse

/-- `os.path.expanduser` (`posixpath.expanduser`) on the character list: a
path not starting with `~` is returned unchanged; otherwise the segment up to
the first `/` names the user (empty: the `HOME` directory, else the user
database, returning the path unchanged for an unknown user); the chosen home
is stripped of trailing slashes and prepended, an empty result becoming `/`. -/
def expanduserChars (os : OS) (p : List Char) : List Char :=
  if p.take 1 ≠ ['~'] then p
  else
    let i := match (p.drop 1).findIdx? (fun c => c = '/') with
      | some j => j + 1
      | none => p.length
    let userhome : Option (List Char) :=
      if i = 1 then some os.home.data
      else
        match os.users (String.mk ((p.drop 1).take (i - 1))) with
        | some h => some h.data
        | none => none
    match userhome with
    | none => p
    | some uh =>
      let r := rstripSlashes uh ++ p.drop i
      if r = [] then ['/'] else r

/-- `os.path.expanduser` at the string level. -/
def expanduser (os : OS) (p : String) : String :=
  String.mk (expanduserChars os p.data)

/-- `posixpath.join(a, b)` for the single extra component used by `abspath`. -/
def joinChars (a b : List Char) : List Char :=
  if b.take 1 = ['/'] then b
  else if a = [] ∨ a.getLast? = some '/' then a ++ b
  else a ++ '/' :: b

/-- The component step of `posixpath.normpath`: `''` and `'.'` components are
dropped; `'..'` is appended when the path is relative and empty so far or the
last kept component is itself `'..'`, and otherwise pops the last component. -/
def normpathStep (slash1 : Bool) (acc : List (List Char)) (comp : List Char) :
    List (List Char) :=
  if comp = [] ∨ comp = ['.'] then acc
  else if comp ≠ ['.', '.'] ∨ (¬ slash1 ∧ acc = []) ∨
      (acc ≠ [] ∧ acc.getLast? = some ['.', '.']) then
    acc ++ [comp]
  else if acc ≠ [] then acc.dropLast else acc

/-- `posixpath.normpath` on the character list: empty path becomes `.`;
one leading slash is kept (two, when the path starts with exactly two);
components are folded with `normpathStep`; an empty result becomes `.`. -/
def normpathChars (p : List Char) : List Char :=
  if p = [] then ['.']
  else
    let slash1 := p.take 1 = ['/']
    let slash2 := p.take 2 = ['/', '/'] ∧ ¬ p.take 3 = ['/', '/', '/']
    let comps := splitChar '/' p
    let newComps := comps.foldl (normpathStep slash1) []
    let out := (if slash2 then ['/', '/'] else if slash1 then ['/'] else []) ++
      List.intercalate ['/'] newComps
    if out = [] then ['.'] else out

/-- `os.path.abspath` (`posixpath.abspath`): a relative path is joined to the
current working directory, and the result is normalised. -/
def abspath (os : OS) (p : String) : String :=
  let c := p.data
  String.mk (normpathChars (if c.take 1 = ['/'] then c else joinChars os.cwd.data c))

/-- `fix_path` (`main.py:55-60`): strip whitespace, remove every backslash,
expand a leading `~`, convert to an absolute path — in that order. -/
def fix_path (os : OS) (path : String) : String :=
  let path := pyStrip path
  let path := removeBackslashes path
  let path := expanduser os path
  let path := abspath os path
  path

/-- `os.path.basename` (`posixpath.basename`): everything after the last `/`. -/
def basename (p : String) : String :=
  String.mk (((p.data.reverse).takeWhile (fun c => c ≠ '/')).reverse)

/-- `check_permission` (`main.py:62-80`): normalises the path, logs it, then
probes existence and readability; missing or unreadable paths yield
`(False, None)` with remediation text, success yields `(True, fixed_path)`.
The whole body is wrapped in `try/except Exception`, so a probe that raises
yields `(False, None)` with the `Error checking file: …` line; the result is
always the pair — no exception escapes.  Returns the pair together with the
console events. -/
def check_permission (os : OS) (path : String) :
    (Bool × Option String) × List Event :=
  let fixed_path := fix_path os path
  let e0 := [Event.log ("Trying to access: " ++ fixed_path)]
  match os.pathExists fixed_path with
  | Except.error e => ((false, none), e0 ++ [Event.log ("Error checking file: " ++ e)])
  | Except.ok false =>
    ((false, none), e0 ++
      [Event.log ("File not found: " ++ fixed_path),
       Event.log "Please check if the path is correct and the file exists"])
  | Except.ok true =>
    match os.readable fixed_path with
    | Except.error e => ((false, none), e0 ++ [Event.log ("Error checking file: " ++ e)])
    | Except.ok false =>
      ((false, none), e0 ++
        [Event.log ("Cannot access file: " ++ fixed_path),
         Event.log ("Try running: chmod +r \x27" ++ fixed_path ++ "\x27")])
    | Except.ok true => ((true, some fixed_path), e0)

/-- The per-frame block shared verbatim by `process_image` (`main.py:97-108`)
and `process_video` (`main.py:142-153`): the model has produced `boxes`
bounding boxes and the plotted frame `annotated` (`res[0].plot()`);
`fire_detected = len(res[0].boxes) > 0`; the info overlay is drawn in place,
then the alert branch appends the red `FIRE/SMOKE DETECTED!` bar and invokes
`play_alarm`, the other branch appends the green `No Fire Detected` bar.
Returns the composed display frame and the events (one `alarmCall` marks each
invocation of the alarm player, followed by whatever `play_alarm` logs). -/
def renderAndAlert (cv : CV) (audio : Audio) (annotated : Image) (boxes : Nat)
    (info_text : String) : Image × List Event :=
  let fire_detected := boxes > 0
  let annotated := (add_info_overlay cv annotated info_text).1
  if fire_detected then
    (add_status_bar cv annotated "FIRE/SMOKE DETECTED!" true,
     Event.alarmCall :: play_alarm audio)
  else
    (add_status_bar cv annotated "No Fire Detected" false, [])

/-- One iteration's worth of environment behaviour in the video loop: either
`cap.read` succeeds and the model yields `boxes` boxes with plotted frame
`annotated` (and `esc` says whether `cv2.waitKey` then reports the escape
key), or some call in the iteration (read, inference, render, display)
raises with message `msg`.  An exhausted list is the source reporting no more
frames (`ret` false). -/
inductive Step where
  | frame (boxes : Nat) (annotated : Image) (esc : Bool)
  | raise (msg : String)
  deriving DecidableEq

/-- The environment of one `process_video` run: the platform for the
Resolver, the OpenCV text primitives, the audio device, whether
`cap.isOpened()` holds, and the per-iteration behaviour. -/
structure VideoEnv where
  os : OS
  cv : CV
  audio : Audio
  capOpens : Bool
  steps : List Step

/-- The `while True` loop of `process_video` (`main.py:136-158`): end of
stream breaks out to `cap.release(); cv2.destroyAllWindows()`; an exception
is caught by the mode-level handler (`main.py:162-163`), which only logs —
the capture is not released and the window is not destroyed; a successful
iteration runs the shared per-frame block with the frame counter incremented,
displays the frame, and either breaks out on escape (release and destroy) or
continues. -/
def videoLoop (cv : CV) (audio : Audio) (fname : String) :
    List Step → Nat → List Event
  | [], _ => [Event.releaseCapture, Event.destroyWindows]
  | Step.raise msg :: _, _ => [Event.log ("Error processing video: " ++ msg)]
  | Step.frame boxes annotated esc :: rest, frame_count =>
    let fc := frame_count + 1
    let info_text := "File: " ++ fname ++ "\nFrame: " ++ toString fc ++
      "\nPress \x27ESC\x27 to exit"
    let r := renderAndAlert cv audio annotated boxes info_text
    r.2 ++ [Event.imshow r.1] ++
      (if esc then [Event.releaseCapture, Event.destroyWindows]
       else videoLoop cv audio fname rest fc)

/-- `process_video` (`main.py:121-163`): validate the path (returning with
only the Resolver's console output on failure, before any window exists),
create the window, open the capture (logging and returning — window still
open — when `cap.isOpened()` fails), then run the frame loop. -/
def process_video (env : VideoEnv) (video_path : String) : List Event :=
  let pr := check_permission env.os video_path
  if ¬ pr.1.1 then pr.2
  else
    let fixed_path := pr.1.2.getD ""
    pr.2 ++ [Event.createWindow, Event.openCapture fixed_path] ++
      (if ¬ env.capOpens then
        [Event.log ("Error: Unable to open video from " ++ fixed_path)]
      else
        videoLoop env.cv env.audio (basename fixed_path) env.steps 0)

/-- The environment of one `process_image` run: the platform for the
Resolver, the OpenCV text primitives, the audio device, the decode result of
`cv2.imread` (`none` when it returns no image), and the model's outcome on
the decoded image — `(boxes, annotated)` or a raised exception. -/
structure ImageEnv where
  os : OS
  cv : CV
  audio : Audio
  imread : String → Option Image
  inference : Image → Except String (Nat × Image)

/-- `process_image` (`main.py:82-119`): validate the path (returning with only
the Resolver's console output on failure, before any window exists), create
the window, then inside the mode-level `try`: decode — when `cv2.imread`
yields no image, log and return with the window still open (the
`cv2.destroyAllWindows()` at the end of the `try` block is skipped); when the
model raises, the handler logs and returns, likewise skipping it; otherwise
run the shared per-frame block, display, busy-poll until the escape key
(the only exit of that `while True` loop), and destroy the window. -/
def process_image (env : ImageEnv) (image_path : String) : List Event :=
  let pr := check_permission env.os image_path
  if ¬ pr.1.1 then pr.2
  else
    let fixed_path := pr.1.2.getD ""
    pr.2 ++ [Event.createWindow,
      Event.log ("Loading image from: " ++ fixed_path)] ++
      (match env.imread fixed_path with
      | none => [Event.log ("Error: Unable to load image from " ++ fixed_path)]
      | some img =>
        match env.inference img with
        | Except.error e => [Event.log ("Error processing image: " ++ e)]
        | Except.ok (boxes, annotated) =>
          let info_text := "File: " ++ basename fixed_path ++
            "\nPress \x27ESC\x27 to exit"
          let r := renderAndAlert env.cv env.audio annotated boxes info_text
          r.2 ++ [Event.imshow r.1, Event.destroyWindows])

/-! ## Concrete collaborator instances (used to evaluate the development on
closed inputs) -/

/-- A platform where every path exists and is readable. -/
def osOK : OS :=
  { home := "/root", cwd := "/", users := fun _ => none,
    pathExists := fun _ => Except.ok true,
    readable := fun _ => Except.ok true }

/-- A platform where no path exists. -/
def osMissing : OS := { osOK with pathExists := fun _ => Except.ok false }

/-- A platform whose existence probe raises. -/
def osRaising : OS := { osOK with pathExists := fun _ => Except.error "boom" }

/-- Text primitives that measure every string as empty and draw nothing. -/
def cvZero : CV :=
  { getTextSize := fun _ _ _ => (0, 0), textMask := fun _ _ _ _ _ _ => false }

/-- Text primitives whose glyphs cover every pixel of the target buffer. -/
def cvAll : CV :=
  { getTextSize := fun _ _ _ => (0, 0), textMask := fun _ _ _ _ _ _ => true }

/-- An audio device on which every call succeeds. -/
def audioOK : Audio :=
  { fromWaveFile := fun _ => Except.ok 0, play := fun _ => Except.ok 0,
    waitDone := fun _ => Except.ok () }

/-- A video run whose first iteration raises. -/
def envRaise : VideoEnv :=
  { os := osOK, cv := cvZero, audio := audioOK, capOpens := true,
    steps := [Step.raise "boom"] }

/-- A video run with one detecting frame followed by end of stream. -/
def envNormal : VideoEnv :=
  { envRaise with steps := [Step.frame 1 [[(0, 0, 0)]] false] }

/-- A video run against a platform where the path does not exist. -/
def envMissingVideo : VideoEnv := { envRaise with os := osMissing, steps := [] }

/-- An image run whose decode step yields no image. -/
def envDecodeFail : ImageEnv :=
  { os := osOK, cv := cvZero, audio := audioOK, imread := fun _ => none,
    inference := fun _ => Except.ok (0, []) }

/-- An image run that fails path validation. -/
def envImagePermFail : ImageEnv := { envDecodeFail with os := osMissing }

/-! ## Helper lemmas -/

theorem putText_length (cv : CV) (b : Image) (t : String) (o : Int × Int)
    (sc : Nat) (col : Pixel) (th : Nat) :
    (putText cv b t o sc col th).length = b.length := by
  simp [putText, List.enum_length]

theorem mem_putText {cv : CV} {b : Image} {t : String} {o : Int × Int}
    {sc : Nat} {col : Pixel} {th : Nat} {row : List Pixel}
    (h : row ∈ putText cv b t o sc col th) :
    ∃ r₀ ∈ b, row.length = r₀.length ∧ ∀ px ∈ row, px = col ∨ px ∈ r₀ := by
  unfold putText at h
  rcases List.mem_map.1 h with ⟨p, hp, rfl⟩
  rcases p with ⟨i, r₀⟩
  rcases List.mem_enum hp with ⟨hi, hx⟩
  refine ⟨r₀, hx ▸ List.getElem_mem hi, by simp [List.enum_length], ?_⟩
  intro px hpx
  rcases List.mem_map.1 hpx with ⟨q, hq, rfl⟩
  rcases q with ⟨j, v⟩
  rcases List.mem_enum hq with ⟨hj, hv⟩
  by_cases hm : cv.textMask t sc th o i j
  · simp [hm]
  · simp only [hm, Bool.false_eq_true, if_false, ite_false]
    exact Or.inr (hv ▸ List.getElem_mem hj)

theorem mem_putText_replicate {cv : CV} {t : String} {o : Int × Int}
    {sc th n w : Nat} {bg col : Pixel} {row : List Pixel}
    (h : row ∈ putText cv (List.replicate n (List.replicate w bg)) t o sc col th) :
    row.length = w ∧ ∀ px ∈ row, px = bg ∨ px = col := by
  rcases mem_putText h with ⟨r₀, hr₀, hlen, hpx⟩
  rcases List.mem_replicate.1 hr₀ with ⟨-, rfl⟩
  refine ⟨by simpa using hlen, fun px hp => ?_⟩
  rcases hpx px hp with h2 | h2
  · exact Or.inr h2
  · exact Or.inl (List.mem_replicate.1 h2).2

theorem play_alarm_events (audio : Audio) :
    play_alarm audio = [] ∨
    ∃ m, play_alarm audio = [Event.log ("Error playing alarm: " ++ m)] := by
  cases hw : audio.fromWaveFile "test.wav" with
  | error e => exact Or.inr ⟨e, by simp [play_alarm, hw]⟩
  | ok wave_obj =>
    cases hp : audio.play wave_obj with
    | error e => exact Or.inr ⟨e, by simp [play_alarm, hw, hp]⟩
    | ok play_obj =>
      cases hd : audio.waitDone play_obj with
      | error e => exact Or.inr ⟨e, by simp [play_alarm, hw, hp, hd]⟩
      | ok u => exact Or.inl (by simp [play_alarm, hw, hp, hd])

theorem alarmCall_notin_play_alarm (audio : Audio) :
    Event.alarmCall ∉ play_alarm audio := by
  rcases play_alarm_events audio with h | ⟨m, h⟩ <;> simp [h]

theorem renderAndAlert_events (cv : CV) (audio : Audio) (annotated : Image)
    (boxes : Nat) (info : String) :
    ∀ e ∈ (renderAndAlert cv audio annotated boxes info).2,
      e = Event.alarmCall ∨ ∃ m, e = Event.log m := by
  intro e he
  unfold renderAndAlert at he
  by_cases hb : boxes > 0
  · simp only [hb, if_true, ite_true, List.mem_cons] at he
    rcases he with rfl | he
    · exact Or.inl rfl
    · rcases play_alarm_events audio with h | ⟨m, h⟩ <;> rw [h] at he <;>
        simp at he
      exact Or.inr ⟨_, he⟩
  · simp [hb] at he

theorem check_permission_fst (os : OS) (p : String) :
    (check_permission os p).1 = (false, none) ∨
    (check_permission os p).1 = (true, some (fix_path os p)) := by
  cases hx : os.pathExists (fix_path os p) with
  | error e => exact Or.inl (by simp [check_permission, hx])
  | ok b =>
    cases b with
    | false => exact Or.inl (by simp [check_permission, hx])
    | true =>
      cases hr : os.readable (fix_path os p) with
      | error e => exact Or.inl (by simp [check_permission, hx, hr])
      | ok c =>
        cases c with
        | false => exact Or.inl (by simp [check_permission, hx, hr])
        | true => exact Or.inr (by simp [check_permission, hx, hr])

theorem check_permission_events (os : OS) (p : String) :
    ∀ e ∈ (check_permission os p).2, ∃ m, e = Event.log m := by
  intro e he
  cases hx : os.pathExists (fix_path os p) with
  | error e2 =>
    simp [check_permission, hx] at he
    rcases he with rfl | rfl <;> exact ⟨_, rfl⟩
  | ok b =>
    cases b with
    | false =>
      simp [check_permission, hx] at he
      rcases he with rfl | rfl | rfl <;> exact ⟨_, rfl⟩
    | true =>
      cases hr : os.readable (fix_path os p) with
      | error e2 =>
        simp [check_permission, hx, hr] at he
        rcases he with rfl | rfl <;> exact ⟨_, rfl⟩
      | ok c =>
        cases c with
        | false =>
          simp [check_permission, hx, hr] at he
          rcases he with rfl | rfl | rfl <;> exact ⟨_, rfl⟩
        | true =>
          simp [check_permission, hx, hr] at he
          exact ⟨_, he⟩

theorem check_permission_snd_of_ok {os : OS} {p : String}
    (h : (check_permission os p).1.1 = true) :
    (check_permission os p).1.2 = some (fix_path os p) := by
  rcases check_permission_fst os p with h2 | h2
  · rw [h2] at h; simp at h
  · rw [h2]

theorem cleanup_notin_frame_events (cv : CV) (audio : Audio) (a : Image)
    (b : Nat) (i : String) :
    Event.releaseCapture ∉ (renderAndAlert cv audio a b i).2 ∧
    Event.destroyWindows ∉ (renderAndAlert cv audio a b i).2 ∧
    Event.createWindow ∉ (renderAndAlert cv audio a b i).2 := by
  refine ⟨fun h => ?_, fun h => ?_, fun h => ?_⟩ <;>
    rcases renderAndAlert_events cv audio a b i _ h with h2 | ⟨m2, h2⟩ <;>
    simp at h2

/-- Frames that continue the video loop: a successful read whose key poll is
not the escape key. -/
def stepNormal : Step → Bool
  | Step.frame _ _ esc => !esc
  | Step.raise _ => false

theorem videoLoop_cleanup (cv : CV) (audio : Audio) (f : String) :
    ∀ (steps : List Step) (n : Nat), (∀ s ∈ steps, ∀ m, s ≠ Step.raise m) →
      Event.releaseCapture ∈ videoLoop cv audio f steps n ∧
      Event.destroyWindows ∈ videoLoop cv audio f steps n := by
  intro steps
  induction steps with
  | nil => intro n _; constructor <;> simp [videoLoop]
  | cons s rest ih =>
    intro n h
    cases s with
    | raise m => exact absurd rfl (h (Step.raise m) (List.mem_cons_self _ _) m)
    | frame b a esc =>
      have hrest : ∀ s ∈ rest, ∀ m, s ≠ Step.raise m :=
        fun s hs => h s (List.mem_cons_of_mem _ hs)
      cases esc with
      | true => constructor <;> simp [videoLoop]
      | false =>
        rcases ih (n + 1) hrest with ⟨h1, h2⟩
        constructor <;> simp [videoLoop, List.mem_append] <;> tauto

theorem videoLoop_raise_no_cleanup (cv : CV) (audio : Audio) (f : String) :
    ∀ (pre : List Step) (m : String) (post : List Step) (n : Nat),
      (∀ s ∈ pre, stepNormal s = true) →
      Event.releaseCapture ∉ videoLoop cv audio f (pre ++ Step.raise m :: post) n ∧
      Event.destroyWindows ∉ videoLoop cv audio f (pre ++ Step.raise m :: post) n := by
  intro pre
  induction pre with
  | nil => intro m post n _; constructor <;> simp [videoLoop]
  | cons s pre2 ih =>
    intro m post n h
    have hs := h s (List.mem_cons_self _ _)
    cases s with
    | raise m2 => simp [stepNormal] at hs
    | frame b a esc =>
      cases esc with
      | true => simp [stepNormal] at hs
      | false =>
        have hpre : ∀ s2 ∈ pre2, stepNormal s2 = true :=
          fun s2 hs2 => h s2 (List.mem_cons_of_mem _ hs2)
        rcases ih m post (n + 1) hpre with ⟨h1, h2⟩
        rw [List.cons_append]
        refine ⟨fun hmem => ?_, fun hmem => ?_⟩ <;>
          simp only [videoLoop, Bool.false_eq_true, if_false,
            List.mem_append, List.mem_cons, List.not_mem_nil, or_false] at hmem
        · rcases hmem with (hmem | hmem) | hmem
          · exact (cleanup_notin_frame_events cv audio a b _).1 hmem
          · simp at hmem
          · exact h1 hmem
        · rcases hmem with (hmem | hmem) | hmem
          · exact (cleanup_notin_frame_events cv audio a b _).2.1 hmem
          · simp at hmem
          · exact h2 hmem

theorem process_video_perm_fail {env : VideoEnv} {p : String}
    (hperm : (check_permission env.os p).1.1 = false) :
    process_video env p = (check_permission env.os p).2 := by
  simp [process_video, hperm]

theorem process_video_ok_trace {env : VideoEnv} {p : String}
    (hperm : (check_permission env.os p).1.1 = true) (hcap : env.capOpens = true) :
    process_video env p =
      (check_permission env.os p).2 ++
        [Event.createWindow, Event.openCapture (fix_path env.os p)] ++
        videoLoop env.cv env.audio (basename (fix_path env.os p)) env.steps 0 := by
  have hs := check_permission_snd_of_ok hperm
  simp [process_video, hperm, hcap, hs]

theorem process_image_perm_fail {env : ImageEnv} {p : String}
    (hperm : (check_permission env.os p).1.1 = false) :
    process_image env p = (check_permission env.os p).2 := by
  simp [process_image, hperm]

theorem process_image_decode_fail {env : ImageEnv} {p : String}
    (hperm : (check_permission env.os p).1.1 = true)
    (hread : env.imread (fix_path env.os p) = none) :
    process_image env p =
      (check_permission env.os p).2 ++
        [Event.createWindow,
         Event.log ("Loading image from: " ++ fix_path env.os p),
         Event.log ("Error: Unable to load image from " ++ fix_path env.os p)] := by
  have hs := check_permission_snd_of_ok hperm
  simp [process_image, hperm, hs, hread]

/-! ## Claims -/

/-- **C1 — counterexample.**  In video mode, with a path that validates and a
capture that opens, a run whose first loop iteration raises (an error during
read/inference/render) is caught by the mode-level handler, which only logs:
the run ends with neither the capture released nor the window destroyed,
refuting the claim that `process_video` always executes the release of the
capture and the destruction of the window before returning. -/
theorem C1_counterexample_raise_skips_cleanup :
    Event.log "Error processing video: boom" ∈ process_video envRaise "/v.mp4" ∧
    Event.releaseCapture ∉ process_video envRaise "/v.mp4" ∧
    Event.destroyWindows ∉ process_video envRaise "/v.mp4" := by
  decide

/-- **C1 (amended).**  In video mode, the capture handle and the display
window are released when the per-mode loop ends normally — end-of-stream or
user-initiated escape; but when an error is raised during read/inference/
render, the mode-level handler only logs it and returns without releasing
the capture or destroying the window (`cap.release()` and
`cv2.destroyAllWindows()` sit at the end of the `try` block, not in a
`finally`). -/
theorem C1_cleanup_on_normal_exit_only (env : VideoEnv) (p : String)
    (hperm : (check_permission env.os p).1.1 = true)
    (hcap : env.capOpens = true) :
    ((∀ s ∈ env.steps, ∀ m, s ≠ Step.raise m) →
      Event.releaseCapture ∈ process_video env p ∧
      Event.destroyWindows ∈ process_video env p) ∧
    (∀ pre m post, env.steps = pre ++ Step.raise m :: post →
      (∀ s ∈ pre, stepNormal s = true) →
      Event.releaseCapture ∉ process_video env p ∧
      Event.destroyWindows ∉ process_video env p) := by
  rw [process_video_ok_trace hperm hcap]
  constructor
  · intro hnr
    rcases videoLoop_cleanup env.cv env.audio (basename (fix_path env.os p))
      env.steps 0 hnr with ⟨h1, h2⟩
    constructor <;> simp [List.mem_append] <;> tauto
  · intro pre m post hsteps hpre
    rw [hsteps]
    rcases videoLoop_raise_no_cleanup env.cv env.audio
      (basename (fix_path env.os p)) pre m post 0 hpre with ⟨h1, h2⟩
    constructor <;> intro hmem <;> simp [List.mem_append] at hmem
    · rcases hmem with hmem | hmem
      · rcases check_permission_events env.os p _ hmem with ⟨m2, hm2⟩
        exact absurd hm2 (by simp)
      · exact h1 hmem
    · rcases hmem with hmem | hmem
      · rcases check_permission_events env.os p _ hmem with ⟨m2, hm2⟩
        exact absurd hm2 (by simp)
      · exact h2 hmem

/-- **C1 — witness.**  A concrete normally terminating run (one non-escape
frame, then end of stream) releases the capture and destroys the window. -/
theorem C1_cleanup_witness :
    (check_permission envNormal.os "/v.mp4").1.1 = true ∧
    envNormal.capOpens = true ∧
    Event.releaseCapture ∈ process_video envNormal "/v.mp4" ∧
    Event.destroyWindows ∈ process_video envNormal "/v.mp4" := by
  have hnr : ∀ s ∈ envNormal.steps, ∀ m, s ≠ Step.raise m := by
    intro s hs m
    simp only [envNormal, envRaise, List.mem_singleton] at hs
    subst hs
    simp
  have h := (C1_cleanup_on_normal_exit_only envNormal "/v.mp4" (by decide)
    rfl).1 hnr
  exact ⟨by decide, rfl, h.1, h.2⟩

/-- **C2.**  Per processed frame (the block shared by `process_image` and
`process_video`), the frame is in the alert state iff the external model
reports one or more boxes: with zero boxes the composed output is the image
with the green `No Fire Detected` status bar appended and the alarm player
is not invoked; with ≥ 1 box it is the image with the red
`FIRE/SMOKE DETECTED!` status bar appended and the alarm player is invoked
exactly once for that frame. -/
theorem C2_alert_iff_boxes (cv : CV) (audio : Audio) (annotated : Image)
    (boxes : Nat) (info : String) :
    (boxes = 0 →
      (renderAndAlert cv audio annotated boxes info).1 =
        add_status_bar cv (add_info_overlay cv annotated info).1
          "No Fire Detected" false ∧
      (renderAndAlert cv audio annotated boxes info).2.count Event.alarmCall = 0) ∧
    (1 ≤ boxes →
      (renderAndAlert cv audio annotated boxes info).1 =
        add_status_bar cv (add_info_overlay cv annotated info).1
          "FIRE/SMOKE DETECTED!" true ∧
      (renderAndAlert cv audio annotated boxes info).2.count Event.alarmCall = 1) := by
  constructor
  · rintro rfl
    constructor <;> simp [renderAndAlert]
  · intro hb
    have hb2 : boxes > 0 := hb
    constructor
    · simp [renderAndAlert, hb2]
    · simp only [renderAndAlert, hb2, if_true, ite_true, List.count_cons_self]
      rw [List.count_eq_zero.2 (alarmCall_notin_play_alarm audio)]

/-- **C2 — witness.**  Concrete frames: zero boxes yield no alarm invocation,
two boxes yield exactly one. -/
theorem C2_witness :
    ((0 : Nat) = 0 ∧
      (renderAndAlert cvZero audioOK [[(1, 1, 1)]] 0 "t").2.count Event.alarmCall = 0) ∧
    (1 ≤ 2 ∧
      (renderAndAlert cvZero audioOK [[(1, 1, 1)]] 2 "t").2.count Event.alarmCall = 1) :=
  ⟨⟨rfl, ((C2_alert_iff_boxes cvZero audioOK [[(1, 1, 1)]] 0 "t").1 rfl).2⟩,
   ⟨by decide, ((C2_alert_iff_boxes cvZero audioOK [[(1, 1, 1)]] 2 "t").2 (by decide)).2⟩⟩

/-- **C3 — counterexample.**  `add_info_overlay` draws with `cv2.putText`
directly into its input buffer; with text primitives whose glyphs cover at
least one pixel (as real OpenCV glyph rendering does for non-degenerate
text), the input image's pixels after the call differ from the original —
the operation is not side-effect-free on its input. -/
theorem C3_counterexample_overlay_mutates :
    (add_info_overlay cvAll [[(9, 9, 9)]] "A").2 ≠ [[(9, 9, 9)]] := by
  decide

/-- **C3 (amended).**  `add_status_bar` is side-effect-free beyond producing
a new image: the caller's buffer is unchanged by the call and the returned
image is a fresh buffer whose top rows are exactly the input.
`add_info_overlay`, in contrast, draws in place: the image it returns and
the post-call state of its input argument are the same (mutated) buffer, so
it does not leave the pixels of its input unchanged. -/
theorem C3_status_bar_pure_overlay_in_place (cv : CV) (img : Image)
    (s t : String) (alert : Bool) :
    (add_status_bar_buffers cv img s alert).2 = img ∧
    (add_status_bar cv img s alert).take img.length = img ∧
    (add_info_overlay cv img t).1 = (add_info_overlay cv img t).2 := by
  refine ⟨rfl, ?_, rfl⟩
  show (img ++ _).take img.length = img
  exact List.take_left img _

/-- **C4.**  For every status string and every bar width, the horizontal
position at which `add_status_bar` draws the status text equals
`(barWidth − measuredTextWidth) // 2` (floor division on integers, Python's
`//`); consequently, when the text fits in the bar the position is
non-negative and the left and right margins around the text differ by at
most one pixel (the division's remainder). -/
theorem C4_status_text_centered (cv : CV) (s : String) (w : Nat) :
    statusTextX cv s w =
      ((w : Int) - ((cv.getTextSize s 10 2).1 : Int)).fdiv 2 ∧
    (((cv.getTextSize s 10 2).1 : Int) ≤ (w : Int) →
      0 ≤ statusTextX cv s w ∧
      (((w : Int) - ((cv.getTextSize s 10 2).1 : Int)) -
          2 * statusTextX cv s w = 0 ∨
       ((w : Int) - ((cv.getTextSize s 10 2).1 : Int)) -
          2 * statusTextX cv s w = 1)) := by
  refine ⟨rfl, fun h => ?_⟩
  unfold statusTextX
  rw [Int.fdiv_eq_ediv _ (by norm_num)]
  omega

/-- **C4 — witness.**  Centering at a concrete text and bar width. -/
theorem C4_witness :
    ((cvZero.getTextSize "No Fire Detected" 10 2).1 : Int) ≤ ((400 : Nat) : Int) ∧
    (0 ≤ statusTextX cvZero "No Fire Detected" 400 ∧
     ((((400 : Nat) : Int) - ((cvZero.getTextSize "No Fire Detected" 10 2).1 : Int)) -
         2 * statusTextX cvZero "No Fire Detected" 400 = 0 ∨
      (((400 : Nat) : Int) - ((cvZero.getTextSize "No Fire Detected" 10 2).1 : Int)) -
         2 * statusTextX cvZero "No Fire Detected" 400 = 1)) :=
  ⟨by decide, (C4_status_text_centered cvZero "No Fire Detected" 400).2 (by decide)⟩

/-- **C5.**  `fix_path` performs, in order: whitespace trimming, removal of
every backslash character, leading-`~` expansion, conversion to an absolute
path.  Every backslash is removed by the second stage — so none remains in
the string the expansion and the subsequent existence/readability checks
operate on — and, for a home directory that is non-empty without a trailing
slash, a bare `~` resolves to the home directory and `~/rest` to the home
directory followed by `/rest`. -/
theorem C5_fix_path_normalisation (os : OS) (p r : String)
    (h1 : rstripSlashes os.home.data = os.home.data) (h2 : os.home ≠ "") :
    fix_path os p = abspath os (expanduser os (removeBackslashes (pyStrip p))) ∧
    (∀ c ∈ (removeBackslashes (pyStrip p)).data, c ≠ '\\') ∧
    expanduser os "~" = os.home ∧
    (expanduser os ("~/" ++ r)).data = os.home.data ++ '/' :: r.data := by
  have hd2 : os.home.data ≠ [] :=
    fun hnil => h2 (show os.home = "" from congrArg String.mk hnil)
  refine ⟨rfl, ?_, ?_, ?_⟩
  · intro c hc
    have := List.of_mem_filter hc
    simpa using this
  · show String.mk (expanduserChars os "~".data) = os.home
    have e1 : expanduserChars os "~".data =
        (if rstripSlashes os.home.data ++ ([] : List Char) = [] then ['/']
         else rstripSlashes os.home.data ++ ([] : List Char)) := rfl
    rw [e1, List.append_nil, h1, if_neg hd2]
  · show expanduserChars os ("~/" ++ r).data = os.home.data ++ '/' :: r.data
    have hdata : ("~/" ++ r).data = '~' :: '/' :: r.data := by
      rw [String.data_append]; rfl
    rw [hdata]
    have e1 : expanduserChars os ('~' :: '/' :: r.data) =
        (if rstripSlashes os.home.data ++ '/' :: r.data = [] then ['/']
         else rstripSlashes os.home.data ++ '/' :: r.data) := rfl
    rw [e1, h1, if_neg (by simp)]

/-- **C5 — witness.**  The normalisation stages evaluated at a concrete
platform and path containing whitespace, a backslash and a `~` input. -/
theorem C5_witness :
    (rstripSlashes osOK.home.data = osOK.home.data ∧ osOK.home ≠ "") ∧
    (fix_path osOK " a\\b " =
       abspath osOK (expanduser osOK (removeBackslashes (pyStrip " a\\b "))) ∧
     (∀ c ∈ (removeBackslashes (pyStrip " a\\b ")).data, c ≠ '\\') ∧
     expanduser osOK "~" = osOK.home ∧
     (expanduser osOK ("~/" ++ "x")).data = osOK.home.data ++ '/' :: "x".data) :=
  ⟨⟨by decide, by decide⟩, C5_fix_path_normalisation osOK " a\\b " "x" (by decide) (by decide)⟩

/-- **C6.**  For any path whose normalised form does not exist,
`check_permission` returns `ok = False` with a null path and logs the
`File not found` guidance, and `process_video` on such a path returns before
`create_window` — its trace contains no window-creation event. -/
theorem C6_missing_path_no_window (env : VideoEnv) (p : String)
    (h : env.os.pathExists (fix_path env.os p) = Except.ok false) :
    (check_permission env.os p).1 = (false, none) ∧
    Event.log ("File not found: " ++ fix_path env.os p) ∈
      (check_permission env.os p).2 ∧
    Event.createWindow ∉ process_video env p := by
  have hfst : (check_permission env.os p).1 = (false, none) := by
    simp [check_permission, h]
  refine ⟨hfst, ?_, ?_⟩
  · simp [check_permission, h]
  · rw [process_video_perm_fail (by rw [hfst])]
    intro hmem
    rcases check_permission_events env.os p _ hmem with ⟨m2, hm2⟩
    exact absurd hm2 (by simp)

/-- **C6 — witness.**  A concrete missing path: validation fails and the
video-mode trace creates no window. -/
theorem C6_witness :
    envMissingVideo.os.pathExists (fix_path envMissingVideo.os "x") =
      Except.ok false ∧
    ((check_permission envMissingVideo.os "x").1 = (false, none) ∧
     Event.log ("File not found: " ++ fix_path envMissingVideo.os "x") ∈
       (check_permission envMissingVideo.os "x").2 ∧
     Event.createWindow ∉ process_video envMissingVideo "x") :=
  ⟨rfl, C6_missing_path_no_window envMissingVideo "x" rfl⟩

/-- **C7.**  For an input image of height `h` whose rows all have width `w`,
`add_status_bar` returns an image of height `h + 60` whose rows all have
width `w`: its top `h` rows are exactly the input and its bottom 60 rows
form the status bar — every bar pixel is the background colour or the text
colour, BGR `(0,0,255)` (red) background with `(255,255,255)` (white) text
when `is_alert` is true, BGR `(0,255,0)` (green) background with `(0,0,0)`
(black) text otherwise. -/
theorem C7_status_bar_geometry (cv : CV) (img : Image) (s : String)
    (alert : Bool) (w : Nat) (hne : img ≠ [])
    (hw : ∀ row ∈ img, row.length = w) :
    (add_status_bar cv img s alert).length = img.length + 60 ∧
    (add_status_bar cv img s alert).take img.length = img ∧
    (∀ row ∈ add_status_bar cv img s alert, row.length = w) ∧
    ((add_status_bar cv img s alert).drop img.length).length = 60 ∧
    (∀ row ∈ (add_status_bar cv img s alert).drop img.length, ∀ px ∈ row,
      px = (if alert then ((0, 0, 255) : Pixel) else (0, 255, 0)) ∨
      px = (if alert then ((255, 255, 255) : Pixel) else (0, 0, 0))) := by
  have hhead : (img.headD []).length = w := by
    cases img with
    | nil => exact absurd rfl hne
    | cons r t => exact hw r (List.mem_cons_self _ _)
  have hsb : add_status_bar cv img s alert =
      img ++ putText cv (List.replicate 60 (List.replicate w
          (if alert then ((0, 0, 255) : Pixel) else (0, 255, 0)))) s
        (statusTextX cv s w, statusTextY cv s) 10
        (if alert then ((255, 255, 255) : Pixel) else (0, 0, 0)) 2 := by
    simp only [add_status_bar, hhead]
  refine ⟨?_, ?_, ?_, ?_, ?_⟩
  · rw [hsb]
    simp [putText_length]
  · rw [hsb]
    exact List.take_left img _
  · rw [hsb]
    intro row hrow
    rcases List.mem_append.1 hrow with hrow | hrow
    · exact hw row hrow
    · exact (mem_putText_replicate hrow).1
  · rw [hsb, List.drop_left]
    simp [putText_length]
  · rw [hsb, List.drop_left]
    intro row hrow px hpx
    exact (mem_putText_replicate hrow).2 px hpx

/-- **C7 — witness.**  The geometry evaluated at a concrete one-pixel image
in the non-alert state. -/
theorem C7_witness :
    (([[(1, 2, 3)]] : Image) ≠ [] ∧
     ∀ row ∈ ([[(1, 2, 3)]] : Image), row.length = 1) ∧
    ((add_status_bar cvZero [[(1, 2, 3)]] "No Fire Detected" false).length =
       ([[(1, 2, 3)]] : Image).length + 60 ∧
     (add_status_bar cvZero [[(1, 2, 3)]] "No Fire Detected" false).take
       ([[(1, 2, 3)]] : Image).length = [[(1, 2, 3)]] ∧
     (∀ row ∈ add_status_bar cvZero [[(1, 2, 3)]] "No Fire Detected" false,
       row.length = 1) ∧
     ((add_status_bar cvZero [[(1, 2, 3)]] "No Fire Detected" false).drop
       ([[(1, 2, 3)]] : Image).length).length = 60 ∧
     (∀ row ∈ (add_status_bar cvZero [[(1, 2, 3)]] "No Fire Detected" false).drop
         ([[(1, 2, 3)]] : Image).length, ∀ px ∈ row,
       px = (if false then ((0, 0, 255) : Pixel) else (0, 255, 0)) ∨
       px = (if false then ((255, 255, 255) : Pixel) else (0, 0, 0)))) :=
  ⟨⟨by decide, by decide⟩,
   C7_status_bar_geometry cvZero [[(1, 2, 3)]] "No Fire Detected" false 1
     (by decide) (by decide)⟩

/-- **C8.**  `play_alarm` never aborts the caller's control flow: for every
behaviour of the audio collaborators (load failure, playback failure, wait
failure, success) it returns normally, producing either no event or exactly
one logged `Error playing alarm: …` line; and the processed frame — the
composed display image and the number of alarm invocations — is the same
whatever the audio outcome, so detection processing continues unaffected. -/
theorem C8_play_alarm_never_propagates (audio : Audio) :
    (play_alarm audio = [] ∨
     ∃ m, play_alarm audio = [Event.log ("Error playing alarm: " ++ m)]) ∧
    (∀ (cv : CV) (annotated : Image) (boxes : Nat) (info : String)
        (audio2 : Audio),
      (renderAndAlert cv audio annotated boxes info).1 =
        (renderAndAlert cv audio2 annotated boxes info).1 ∧
      (renderAndAlert cv audio annotated boxes info).2.count Event.alarmCall =
        (renderAndAlert cv audio2 annotated boxes info).2.count Event.alarmCall) := by
  refine ⟨play_alarm_events audio, fun cv annotated boxes info audio2 => ?_⟩
  by_cases hb : boxes > 0
  · constructor
    · simp [renderAndAlert, hb]
    · simp only [renderAndAlert, hb, if_true, ite_true, List.count_cons_self]
      rw [List.count_eq_zero.2 (alarmCall_notin_play_alarm audio),
        List.count_eq_zero.2 (alarmCall_notin_play_alarm audio2)]
  · constructor <;> simp [renderAndAlert, hb]

/-- **C9.**  No exception escapes the Resolver: `check_permission` is a total
function into (boolean, optional-path) pairs, its result is either
`(False, None)` or `(True, fixed_path)`, and in particular a filesystem
probe that raises — during the existence or the readability check — yields
`(False, None)`: all failure is reported through the boolean component. -/
theorem C9_resolver_total (os : OS) (p : String) :
    ((check_permission os p).1 = (false, none) ∨
     (check_permission os p).1 = (true, some (fix_path os p))) ∧
    (∀ e, os.pathExists (fix_path os p) = Except.error e →
      (check_permission os p).1 = (false, none)) ∧
    (∀ e, os.pathExists (fix_path os p) = Except.ok true →
      os.readable (fix_path os p) = Except.error e →
      (check_permission os p).1 = (false, none)) := by
  refine ⟨check_permission_fst os p, fun e he => ?_, fun e he hr => ?_⟩
  · simp [check_permission, he]
  · simp [check_permission, he, hr]

/-- **C9 — witness.**  A platform whose existence probe raises: the Resolver
still returns `(False, None)`. -/
theorem C9_witness :
    osRaising.pathExists (fix_path osRaising "x") = Except.error "boom" ∧
    (check_permission osRaising "x").1 = (false, none) :=
  ⟨rfl, (C9_resolver_total osRaising "x").2.1 "boom" rfl⟩

/-- **C10.**  In image mode the window is created before the image is
decoded: when the path validates but `cv2.imread` yields no image, the trace
contains the window creation and the decode-error line but no
window-destruction event (the destroy step at the end of the `try` block is
skipped by the early return); when path validation fails, no window is
created at all. -/
theorem C10_window_left_open_on_decode_failure (env : ImageEnv) (p : String) :
    ((check_permission env.os p).1.1 = true →
      env.imread (fix_path env.os p) = none →
      Event.createWindow ∈ process_image env p ∧
      Event.log ("Error: Unable to load image from " ++ fix_path env.os p) ∈
        process_image env p ∧
      Event.destroyWindows ∉ process_image env p) ∧
    ((check_permission env.os p).1.1 = false →
      Event.createWindow ∉ process_image env p) := by
  constructor
  · intro hperm hread
    rw [process_image_decode_fail hperm hread]
    refine ⟨by simp, by simp, ?_⟩
    intro hmem
    rcases List.mem_append.1 hmem with hmem | hmem
    · rcases check_permission_events env.os p _ hmem with ⟨m2, hm2⟩
      exact absurd hm2 (by simp)
    · simp at hmem
  · intro hperm
    rw [process_image_perm_fail hperm]
    intro hmem
    rcases check_permission_events env.os p _ hmem with ⟨m2, hm2⟩
    exact absurd hm2 (by simp)

/-- **C10 — witness.**  Concrete runs: a decode failure leaves the created
window open, and a validation failure creates no window. -/
theorem C10_witness :
    ((check_permission envDecodeFail.os "x").1.1 = true ∧
     envDecodeFail.imread (fix_path envDecodeFail.os "x") = none ∧
     Event.createWindow ∈ process_image envDecodeFail "x" ∧
     Event.destroyWindows ∉ process_image envDecodeFail "x") ∧
    ((check_permission envImagePermFail.os "x").1.1 = false ∧
     Event.createWindow ∉ process_image envImagePermFail "x") :=
  ⟨⟨by decide, rfl,
    ((C10_window_left_open_on_decode_failure envDecodeFail "x").1 (by decide) rfl).1,
    ((C10_window_left_open_on_decode_failure envDecodeFail "x").1 (by decide) rfl).2.2⟩,
   ⟨by decide, (C10_window_left_open_on_decode_failure envImagePermFail "x").2 (by decide)⟩⟩
